import Mathlib

/-!
Verification development for the Aadhaar lifecycle dashboard repository
(`src/app.py`, `src/converter.py`).

The repository is a Streamlit dashboard over pandas DataFrames plus an
offline Excel-to-CSV converter.  The operations the specification names
(`load`, `sumColumns`, `sumMatchingColumns`, `countByGroup`, the converter
loop) live inline in the two Python files; this file gives a shallow
embedding of each of them and proves or refutes the frozen claims.

Modelling conventions:
* A pandas cell value is `Value`: a number (`num`, modelled with `Int`),
  a string (`str`), or a missing value / NaN (`null`).
* A `Table` is a DataFrame: an ordered column-name list and a list of
  rows; a row is an association list from column name to value, and a
  column absent from a row reads as `null` (as after `pd.concat` of
  frames with different columns).
* `DataFrame.empty` is true iff some axis has length zero, i.e. the row
  list or the column list is empty.
* `Series.sum()` skips NaN, sums numeric columns numerically,
  concatenates all-string object columns, and raises `TypeError` on a
  column mixing numeric and string cells.
* Comparison `series == v` is elementwise with NaN never equal to
  anything (pandas semantics), and `groupby(col).size()` drops null group
  keys and sorts group keys ascending.
-/

namespace AadhaarDash

/-- A single cell value of a loaded table: numeric, string, or missing
(NaN). -/
inductive Value where
  | null : Value
  | num : Int → Value
  | str : String → Value
deriving DecidableEq

/-- A loaded table (pandas DataFrame): ordered column names plus rows,
each row an association list from column name to cell value. -/
structure Table where
  cols : List String
  rows : List (List (String × Value))
deriving DecidableEq

/-- Decidable equality of `Except` results, so that concrete outcomes
of the fallible operations can be checked by evaluation. -/
instance {e a : Type} [DecidableEq e] [DecidableEq a] : DecidableEq (Except e a)
  | Except.error x, Except.error y =>
      if h : x = y then isTrue (by rw [h])
      else isFalse (by intro hh; cases hh; exact h rfl)
  | Except.error _, Except.ok _ => isFalse (by intro hh; cases hh)
  | Except.ok _, Except.error _ => isFalse (by intro hh; cases hh)
  | Except.ok x, Except.ok y =>
      if h : x = y then isTrue (by rw [h])
      else isFalse (by intro hh; cases hh; exact h rfl)

/-- Reading a cell of a row: a column absent from the row reads as
`null` (NaN), matching a DataFrame built by `pd.concat` over frames with
differing columns. -/
def getVal (r : List (String × Value)) (c : String) : Value :=
  match r.lookup c with
  | some v => v
  | none => Value.null

/-- The empty DataFrame `pd.DataFrame()`. -/
def Table.emptyTable : Table := ⟨[], []⟩

/-- Model of `DataFrame.empty`: true iff the row axis or the column axis has
length zero. -/
def Table.isEmptyDF (t : Table) : Bool :=
  t.rows.isEmpty || t.cols.isEmpty

/-- Test whether a cell is numeric. -/
def Value.isNum : Value → Bool
  | Value.num _ => true
  | _ => false

/-- Test whether a cell is a string. -/
def Value.isStr : Value → Bool
  | Value.str _ => true
  | _ => false

/-- Numeric payload of a cell, if any. -/
def Value.asInt? : Value → Option Int
  | Value.num n => some n
  | _ => none

/-- String payload of a cell, if any. -/
def Value.asStr? : Value → Option String
  | Value.str s => some s
  | _ => none

/-- Model of `Series.sum()` on one column's cells.  Pandas skips NaN
(`skipna=True`); an empty or all-NaN column sums to 0; a numeric column
sums numerically; an object column of strings sums to their
concatenation in row order; a column mixing numeric and string cells
raises `TypeError`, which propagates out of the view.  The numeric sum
is exact integer arithmetic here; pandas accumulates in int64 (which
wraps) or float64 (which rounds), so the claim theorems restrict their
totals to magnitudes where those agree with the exact sum (absolute
cell sums at most 2^53). -/
def seriesSum (vals : List Value) : Except String Value :=
  let xs := vals.filter fun v => v != Value.null
  if xs.isEmpty then Except.ok (Value.num 0)
  else if xs.all Value.isNum then
    Except.ok (Value.num (xs.filterMap Value.asInt?).sum)
  else if xs.all Value.isStr then
    Except.ok (Value.str (String.join (xs.filterMap Value.asStr?)))
  else Except.error "TypeError"

/-- Model of `df[c].sum()`: `Series.sum()` over the cells of column `c`
in row order. -/
def colSum (t : Table) (c : String) : Except String Value :=
  seriesSum (t.rows.map fun r => getVal r c)

/-- Column union for `pd.concat`: append the columns of each fragment
that are not already present, preserving order of first appearance. -/
def addCols (acc : List String) (cs : List String) : List String :=
  acc ++ cs.filter (fun c => !acc.contains c)

/-- Model of `pd.concat(dfs, ignore_index=True)`: union of columns in order of
first appearance, rows concatenated in fragment order. -/
def concatTables (ts : List Table) : Table :=
  ⟨ts.foldl (fun acc t => addCols acc t.cols) [],
   ts.foldl (fun acc t => acc ++ t.rows) []⟩

/-- Embedding of `load_folder_csvs` (src/app.py lines 43-55).  The input
models the result of `glob.glob(folder + "/*.csv")` followed by
`pd.read_csv` on each file: a list of (filename, parse result), where a
parse failure carries the exception text.  A missing folder yields an
empty file list (glob on a nonexistent path returns `[]`).  Returns the
concatenated table together with the emitted warnings, one
(filename, reason) pair per failed file. -/
def load_folder_csvs (files : List (String × Except String Table)) :
    Table × List (String × String) :=
  if files.isEmpty then (Table.emptyTable, [])
  else
    let dfs := files.filterMap (fun p => p.2.toOption)
    let warns := files.filterMap (fun p =>
      match p.2 with
      | Except.error e => some (p.1, e)
      | Except.ok _ => none)
    ((if dfs.isEmpty then Table.emptyTable else concatTables dfs), warns)

/-- Embedding of the Age-wise Enrolment / Demographic Updates views
(src/app.py lines 106-112 and 134-140): the spec's `sumColumns`.
Signals the error condition (`none`, rendered by `st.error`) when the
table is empty (`df.empty`) or any requested column is absent; otherwise
returns one (label, total) pair per requested column, in request order,
via `df[cols].sum()`. -/
def sumColumns (t : Table) (cs : List String) :
    Option (Except String (List (String × Value))) :=
  if t.isEmptyDF || !(cs.all (fun c => t.cols.contains c)) then none
  else some (cs.mapM fun c => (colSum t c).map fun v => (c, v))

/-- Character codes of a string. -/
def strCodes (s : String) : List Nat :=
  s.toList.map Char.toNat

/-- ASCII lowercasing of one character code (Python `str.lower` on the
ASCII column names of this repository). -/
def lowerCode (n : Nat) : Nat :=
  if 65 ≤ n && n ≤ 90 then n + 32 else n

/-- Character codes of `s.lower()`. -/
def strCodesLower (s : String) : List Nat :=
  (strCodes s).map lowerCode

/-- Substring test on code lists: does `sub` occur contiguously in the
list? -/
def subAt (sub : List Nat) : List Nat → Bool
  | [] => sub.isEmpty
  | c :: t => sub.isPrefixOf (c :: t) || subAt sub t

/-- Python's `pred in c.lower()` membership test used by the column
comprehension. -/
def nameMatches (c : String) (pred : String) : Bool :=
  subAt (strCodes pred) (strCodesLower c)

/-- Embedding of the Biometric Lifecycle view (src/app.py lines
162-167): the spec's `sumMatchingColumns`.  Matched columns are the
comprehension `[c for c in df.columns if pred in c.lower()]`; the view
signals the error condition (`none`) when the table is empty
(`df.empty`) or no column matches, and otherwise sums each matched
column in table-column order. -/
def sumMatchingColumns (t : Table) (pred : String) :
    Option (Except String (List (String × Value))) :=
  let matched := t.cols.filter (fun c => nameMatches c pred)
  if t.isEmptyDF || matched.isEmpty then none
  else some (matched.mapM fun c => (colSum t c).map fun v => (c, v))

/-- Elementwise pandas equality `series == v`: NaN on either side never
compares equal. -/
def seriesEq : Value → Value → Bool
  | Value.null, _ => false
  | _, Value.null => false
  | v, w => v == w

/-- Lexicographic order test on code lists (string ordering). -/
def lexLe : List Nat → List Nat → Bool
  | [], _ => true
  | _ :: _, [] => false
  | a :: as, b :: bs => a < b || (a == b && lexLe as bs)

/-- A Boolean linear-order test on values, used to model the ascending
group-key ordering of `groupby(col).size()` (nulls first, then numbers,
then strings; nulls are dropped before sorting anyway). -/
def valLe : Value → Value → Bool
  | Value.null, _ => true
  | _, Value.null => false
  | Value.num a, Value.num b => a ≤ b
  | Value.num _, Value.str _ => true
  | Value.str _, Value.num _ => false
  | Value.str a, Value.str b => lexLe (strCodes a) (strCodes b)

/-- Insertion into a `valLe`-sorted list. -/
def insertVal (x : Value) : List Value → List Value
  | [] => [x]
  | y :: t => if valLe x y then x :: y :: t else y :: insertVal x t

/-- Insertion sort by `valLe`. -/
def sortVals : List Value → List Value
  | [] => []
  | x :: t => insertVal x (sortVals t)

/-- Model of `df.groupby(g).size()` on a row list: distinct non-null values of
column `g`, sorted ascending, each paired with the number of rows
carrying that value. -/
def groupCounts (rows : List (List (String × Value))) (g : String) :
    List (Value × Nat) :=
  let keys := sortVals (((rows.map (fun r => getVal r g)).filter
    (fun v => v != Value.null)).dedup)
  keys.map (fun k => (k, rows.countP (fun r => getVal r g == k)))

/-- Embedding of the Regional Insights view (src/app.py lines 190-201):
the spec's `countByGroup`.  Signals the error condition (`none`) when
the table is empty (`df.empty`) or the group column or the filter column
is absent; otherwise optionally restricts via `df[df[f] == v]` and then
groups `groupby(g).size()`. -/
def countByGroup (t : Table) (g : String) (filt : Option (String × Value)) :
    Option (List (Value × Nat)) :=
  let colsOk := t.cols.contains g &&
    (match filt with
     | none => true
     | some fv => t.cols.contains fv.1)
  if t.isEmptyDF || !colsOk then none
  else
    let rows := match filt with
      | none => t.rows
      | some fv => t.rows.filter (fun r => seriesEq (getVal r fv.1) fv.2)
    some (groupCounts rows g)

/-! ### Memoization (`@st.cache_data` on `load_folder_csvs`)

`@st.cache_data` (src/app.py line 42) memoizes the decorated loader on
its argument for the lifetime of the process: a cache keyed by the
folder path; on a hit the cached value is returned with no disk access.
The filesystem is modelled as a map from folder path to the glob/parse
results the loader would see, and `ioCount` counts the executions of the
loader body (each of which performs the disk I/O). -/

/-- Process-wide cache state for the memoized loader: cached results
keyed by folder path, plus a count of loader-body executions (disk
reads). -/
structure CacheState where
  cache : List (String × (Table × List (String × String)))
  ioCount : Nat
deriving DecidableEq

/-- A call to the `@st.cache_data`-decorated `load_folder_csvs`: on a
cache hit return the cached result unchanged; on a miss run the loader
body (one unit of disk I/O) and record the result under the folder
path. -/
def cachedLoad (fs : String → List (String × Except String Table))
    (s : CacheState) (path : String) :
    (Table × List (String × String)) × CacheState :=
  match s.cache.lookup path with
  | some r => (r, s)
  | none =>
      let r := load_folder_csvs (fs path)
      (r, ⟨(path, r) :: s.cache, s.ioCount + 1⟩)

/-! ### Converter (`src/converter.py`) -/

/-- The fixed subfolder list of the converter (src/converter.py lines
10-14). -/
def folders : List String :=
  ["api_data_aadhar_enrolment", "api_data_aadhar_demographic",
   "api_data_aadhar_biometric"]

/-- The converter's output root (src/converter.py line 6). -/
def OUTPUT_ROOT : String := "data_csv_converted"

/-- Model of `os.path.join` for the two-component paths the converter builds
(`INPUT_ROOT` is the empty string, and `os.path.join("", f) = f`). -/
def joinPath (a b : String) : String :=
  if a = "" then b else a ++ "/" ++ b

/-- Suffix test on strings via character codes. -/
def endsWithExt (n : String) (ext : String) : Bool :=
  (strCodes ext).reverse.isPrefixOf (strCodes n).reverse

/-- Test whether a filename is hidden (starts with a dot); Python's
`glob` never matches hidden files with the `*` wildcard. -/
def isHiddenName (n : String) : Bool :=
  match strCodes n with
  | c :: _ => c == 46
  | [] => false

/-- Model of `glob.glob(folder + "/*.xlsx")`: a nonexistent folder yields no
matches; otherwise exactly the non-hidden entries whose name ends in the
literal lowercase extension `.xlsx` (glob is case-sensitive,
non-recursive, and skips dot-files). -/
def globXlsx (entries : Option (List String)) : List String :=
  match entries with
  | none => []
  | some ns => ns.filter (fun n => endsWithExt n ".xlsx" && !(isHiddenName n))

/-- Output filename for a converted workbook:
`os.path.splitext(os.path.basename(file))[0] + ".csv"`. -/
def csvName (n : String) : String :=
  if endsWithExt n ".xlsx" then
    String.mk (n.toList.take (n.toList.length - 5)) ++ ".csv"
  else n ++ ".csv"

/-- Observable effects of a converter run: directories created by
`os.makedirs(..., exist_ok=True)` and CSV files written, each tagged
with its output folder. -/
structure ConvState where
  createdDirs : List String
  outputs : List (String × String)
deriving DecidableEq

/-- One iteration of the conversion loop (src/converter.py lines
16-28): create the mirrored output folder, glob the input folder
(`INPUT_ROOT` is the empty string, so the input path is the bare folder
name), and convert each matched workbook in discovery order; a failed
read (`pd.read_excel` raising) aborts the run naming the file, since the
tool has no per-file recovery. -/
def convertFolder (fs : String → Option (List String))
    (readOk : String → Bool) (acc : ConvState) (folder : String) :
    Except String ConvState :=
  let outPath := joinPath OUTPUT_ROOT folder
  let acc1 : ConvState := ⟨acc.createdDirs ++ [outPath], acc.outputs⟩
  (globXlsx (fs (joinPath "" folder))).foldlM
    (fun (a : ConvState) file =>
      if readOk file then
        Except.ok ⟨a.createdDirs, a.outputs ++ [(outPath, csvName file)]⟩
      else Except.error file)
    acc1

/-- Embedding of the whole converter run (src/converter.py lines 8-28):
the output root is created first (line 8), then each subfolder of the
fixed list is processed in order.  `fs` maps an input subfolder to its
directory listing (`none` when the folder does not exist); `readOk`
tells whether `pd.read_excel` succeeds on a file.  The output directory
is created before globbing, so an absent or empty input folder still
gets its mirrored output folder. -/
def runConverter (fs : String → Option (List String))
    (readOk : String → Bool) : Except String ConvState :=
  folders.foldlM (convertFolder fs readOk) ⟨[OUTPUT_ROOT], []⟩

/-! ### CSV round-trip (`converter.py` write, `app.py` read)

`df.to_csv(path, index=False)` writes the header row and then each cell
as its text rendering, a missing value (NaN) as the empty field;
`pd.read_csv` reads the header back verbatim as column names and infers
cell types per field: an empty field or a default NA token ("nan",
"NA", "None", ...) becomes NaN, an integer-looking field becomes an
integer, a float-looking or boolean-looking field becomes a float64 or
bool — values outside this embedding's `Value` domain, modelled as an
undefined (`none`) parse — and everything else stays a string. -/

/-- Text rendering of a cell by `to_csv`: numbers print, strings are
written verbatim, NaN becomes the empty field. -/
def renderCell : Value → String
  | Value.null => ""
  | Value.num n => toString n
  | Value.str s => s

/-- Digit-string parse used by the reader's type inference. -/
def parseNatDigits (cs : List Char) : Option Nat :=
  if !cs.isEmpty && cs.all (fun c => c.isDigit) then
    some (cs.foldl (fun a c => a * 10 + (c.toNat - 48)) 0)
  else none

/-- Integer parse of a CSV field (optional leading minus sign followed
by digits). -/
def parseIntCell (s : String) : Option Int :=
  match s.toList with
  | '-' :: rest => (parseNatDigits rest).map (fun n => -(n : Int))
  | cs => (parseNatDigits cs).map (fun n => (n : Int))

/-- Default NA tokens of `pd.read_csv` (its `na_values` default list):
fields reading as NaN. -/
def naStrings : List String :=
  ["", "#N/A", "#N/A N/A", "#NA", "-1.#IND", "-1.#QNAN", "-NaN", "-nan",
   "1.#IND", "1.#QNAN", "<NA>", "N/A", "NA", "NULL", "NaN", "None",
   "n/a", "nan", "null"]

/-- Code lists of the boolean tokens the reader turns into `bool`
values. -/
def boolCodes : List (List Nat) :=
  ["True", "False", "TRUE", "FALSE", "true", "false"].map strCodes

/-- Code lists of the infinity tokens the reader turns into `float`
values. -/
def infCodes : List (List Nat) :=
  ["inf", "-inf", "+inf", "Inf", "-Inf", "INF", "-INF",
   "Infinity", "-Infinity", "infinity"].map strCodes

/-- Character codes that can make up a numeric field (digits, sign,
decimal point, exponent markers). -/
def numericChar (c : Nat) : Bool :=
  (48 ≤ c && c ≤ 57) || c == 43 || c == 45 || c == 46 || c == 101 || c == 69

/-- Strip surrounding spaces from a code list. -/
def trimCodes (l : List Nat) : List Nat :=
  ((l.dropWhile (fun c => c == 32)).reverse.dropWhile (fun c => c == 32)).reverse

/-- Fields the reader converts to a value outside this embedding's
`Value` domain or to a number after whitespace stripping: boolean
tokens, infinity tokens, and anything built solely from numeric
characters with at least one digit (floats, exponent forms,
sign/space-decorated integers).  Over-approximating here is sound: it
only shrinks the set of fields the round-trip theorem asserts stable. -/
def inferredNonText (s : String) : Bool :=
  let u := trimCodes (strCodes s)
  boolCodes.contains u || infCodes.contains u ||
    (!u.isEmpty && u.all numericChar && u.any (fun c => 48 ≤ c && c ≤ 57))

/-- Model of `pd.read_csv` type inference on one field: an NA token
becomes NaN, an integer-looking field becomes that integer, a
float/boolean/decorated-number field becomes a value outside the
embedding's `Value` domain (`none`), and everything else stays a
string. -/
def parseCell (s : String) : Option Value :=
  if naStrings.contains s then some Value.null
  else match parseIntCell s with
    | some n => some (Value.num n)
    | none => if inferredNonText s then none else some (Value.str s)

/-- Excel-to-CSV-to-DataFrame round trip of one table (src/converter.py
lines 24-27 composed with src/app.py line 51): the header is written and
re-read verbatim; every cell goes through text rendering and reader type
inference, in the table's column order; the result is undefined (`none`)
when some cell comes back as a float or bool, outside the embedding's
value domain. -/
def roundTripTable (t : Table) : Option Table :=
  (t.rows.mapM fun r =>
    t.cols.mapM fun c => (parseCell (renderCell (getVal r c))).map fun v => (c, v)).map
    fun rs => ⟨t.cols, rs⟩

/-! ### Concrete tables used by witnesses and counterexamples -/

/-- The spec's worked example for `sumColumns`: columns a = [1,2,3],
b = [4,5,6]. -/
def exTabAB : Table :=
  ⟨["a", "b"],
   [[("a", Value.num 1), ("b", Value.num 4)],
    [("a", Value.num 2), ("b", Value.num 5)],
    [("a", Value.num 3), ("b", Value.num 6)]]⟩

/-- The spec's worked example for `sumMatchingColumns`: columns
age_x = [1,1], age_y = [2,2] plus a non-matching `name` column. -/
def exTabBio : Table :=
  ⟨["age_x", "age_y", "name"],
   [[("age_x", Value.num 1), ("age_y", Value.num 2), ("name", Value.str "p")],
    [("age_x", Value.num 1), ("age_y", Value.num 2), ("name", Value.str "q")]]⟩

/-- A regional table with a null district row and two states. -/
def exTabReg : Table :=
  ⟨["state", "district"],
   [[("state", Value.str "X"), ("district", Value.str "A")],
    [("state", Value.str "X"), ("district", Value.str "A")],
    [("state", Value.str "X"), ("district", Value.str "B")],
    [("state", Value.str "Y"), ("district", Value.str "C")],
    [("district", Value.str "D")]]⟩

/-! ### Helper lemmas -/

theorem isEmpty_false_of_ne_nil {α : Type _} {l : List α} (h : l ≠ []) :
    l.isEmpty = false := by
  cases l with
  | nil => exact absurd rfl h
  | cons a t => rfl

theorem all_contains_of_forall_mem {cs cols : List String}
    (h : ∀ c ∈ cs, c ∈ cols) :
    (cs.all fun c => cols.contains c) = true := by
  simp only [List.all_eq_true]
  intro c hc
  exact List.elem_eq_true_of_mem (h c hc)

theorem all_contains_false_of_missing {cs cols : List String} {c : String}
    (hc : c ∈ cs) (habs : c ∉ cols) :
    (cs.all fun c => cols.contains c) = false := by
  by_contra h
  have h' := List.all_eq_true.mp (Bool.of_not_eq_false h) c hc
  exact habs (by simpa using h')

theorem ne_nil_of_mem {α : Type _} {l : List α} {a : α} (h : a ∈ l) : l ≠ [] := by
  intro he
  rw [he] at h
  cases h

theorem filter_notNull_filterMap_asInt (vals : List Value) :
    ((vals.filter fun v => v != Value.null).filterMap Value.asInt?) =
      vals.filterMap Value.asInt? := by
  induction vals with
  | nil => rfl
  | cons v t ih => cases v <;> simp [Value.asInt?, ih]

theorem colSum_numeric (t : Table) (c : String)
    (h : ∀ r ∈ t.rows, getVal r c = Value.null ∨ (getVal r c).isNum = true) :
    colSum t c =
      Except.ok (Value.num ((t.rows.filterMap fun r => (getVal r c).asInt?).sum)) := by
  have hsum : ((((t.rows.map fun r => getVal r c).filter
      fun v => v != Value.null).filterMap Value.asInt?).sum) =
      (t.rows.filterMap fun r => (getVal r c).asInt?).sum := by
    rw [filter_notNull_filterMap_asInt, List.filterMap_map]
    rfl
  have hcell : ∀ v ∈ (t.rows.map fun r => getVal r c),
      v = Value.null ∨ v.isNum = true := by
    intro v hv
    obtain ⟨r, hr, rfl⟩ := List.mem_map.mp hv
    exact h r hr
  show seriesSum _ = _
  by_cases hx : ((t.rows.map fun r => getVal r c).filter
      fun v => v != Value.null).isEmpty
  · have hnil : ((t.rows.map fun r => getVal r c).filter
        fun v => v != Value.null) = [] := by
      cases he : (t.rows.map fun r => getVal r c).filter fun v => v != Value.null with
      | nil => rfl
      | cons a b => rw [he] at hx; cases hx
    have : (t.rows.filterMap fun r => (getVal r c).asInt?).sum = 0 := by
      rw [← hsum, hnil]
      rfl
    simp only [seriesSum, hx, if_true, this]
  · have hall : ((t.rows.map fun r => getVal r c).filter
        fun v => v != Value.null).all Value.isNum = true := by
      rw [List.all_eq_true]
      intro v hv
      have hmem := List.mem_of_mem_filter hv
      have hne := List.of_mem_filter hv
      rcases hcell v hmem with hnull | hnum
      · rw [hnull] at hne
        cases hne
      · exact hnum
    simp only [seriesSum, hx, Bool.false_eq_true, if_false, hall, if_true, hsum]

theorem mapM_ok_of_forall {α β : Type} (F : α → Except String β) (G : α → β)
    (l : List α) (h : ∀ a ∈ l, F a = Except.ok (G a)) :
    l.mapM F = Except.ok (l.map G) := by
  induction l with
  | nil => rfl
  | cons a t ih =>
    rw [List.mapM_cons, h a (List.mem_cons_self _ _),
      ih fun b hb => h b (List.mem_cons_of_mem _ hb)]
    rfl

theorem mapM_some_of_forall {α β : Type} (F : α → Option β) (G : α → β)
    (l : List α) (h : ∀ a ∈ l, F a = some (G a)) :
    l.mapM F = some (l.map G) := by
  induction l with
  | nil => rfl
  | cons a t ih =>
    rw [List.mapM_cons, h a (List.mem_cons_self _ _),
      ih fun b hb => h b (List.mem_cons_of_mem _ hb)]
    rfl

/-! ### Claim C1 -/

/-- C1 counterexample: on a table with zero rows whose columns are
exactly the three requested age columns, `sumColumns` signals the error
condition (`none`) instead of returning total = 0 per column, refuting
the claim that an empty table yields zeroes and no error. -/
theorem C1_sumColumns_empty_cex :
    sumColumns ⟨["age_0_5", "age_5_17", "age_18_greater"], []⟩
        ["age_0_5", "age_5_17", "age_18_greater"] = none ∧
      sumColumns ⟨["age_0_5", "age_5_17", "age_18_greater"], []⟩
        ["age_0_5", "age_5_17", "age_18_greater"] ≠
        some (Except.ok [("age_0_5", Value.num 0), ("age_5_17", Value.num 0),
          ("age_18_greater", Value.num 0)]) := by
  decide

/-- C1 amended: on every table with zero rows, `sumColumns` signals the
error condition for every requested column list (the `df.empty` guard
fires before any summation), and never returns totals. -/
theorem C1_sumColumns_zero_rows_signals_error (t : Table) (cs : List String)
    (h : t.rows = []) : sumColumns t cs = none := by
  simp [sumColumns, Table.isEmptyDF, h]

/-- C1 witness: the amended theorem applied to a concrete zero-row
table. -/
theorem C1_witness :
    (⟨["a"], []⟩ : Table).rows = [] ∧ sumColumns ⟨["a"], []⟩ ["a"] = none :=
  ⟨rfl, C1_sumColumns_zero_rows_signals_error ⟨["a"], []⟩ ["a"] rfl⟩

/-! ### Claim C2 -/

/-- C2: whenever some requested column is absent from the table,
`sumColumns` signals the missing-required-columns condition (`none`) and
produces no partial result. -/
theorem C2_sumColumns_missing_column_signals (t : Table) (cs : List String)
    (c : String) (hc : c ∈ cs) (habs : c ∉ t.cols) :
    sumColumns t cs = none := by
  have hall := all_contains_false_of_missing hc habs
  simp only [sumColumns, hall, Bool.not_false, Bool.or_true, if_true]

/-- C2 witness: requesting columns a, b of a table having only column a
signals the condition. -/
theorem C2_witness :
    ("b" ∈ ["a", "b"]) ∧ ("b" ∉ (["a"] : List String)) ∧
      sumColumns ⟨["a"], [[("a", Value.num 1)]]⟩ ["a", "b"] = none :=
  ⟨by decide, by decide,
   C2_sumColumns_missing_column_signals ⟨["a"], [[("a", Value.num 1)]]⟩
     ["a", "b"] "b" (by decide) (by decide)⟩

/-! ### Claim C3 -/

/-- C3 counterexample: the claim fails twice over — a zero-row table
containing all requested columns makes `sumColumns` signal the error
condition rather than return one entry per column, and a requested
column mixing a numeric and a string cell makes the summation raise
`TypeError` instead of treating the string as a zero contribution. -/
theorem C3_sumColumns_zero_rows_cex :
    ((∀ c ∈ ["a", "b"], c ∈ (⟨["a", "b"], []⟩ : Table).cols) ∧
        sumColumns ⟨["a", "b"], []⟩ ["a", "b"] = none) ∧
      (sumColumns ⟨["a"], [[("a", Value.num 1)], [("a", Value.str "x")]]⟩ ["a"] =
          some (Except.error "TypeError") ∧
        sumColumns ⟨["a"], [[("a", Value.num 1)], [("a", Value.str "x")]]⟩ ["a"] ≠
          some (Except.ok [("a", Value.num 1)])) := by
  decide

/-- C3 amended: on every table with at least one row and at least one
column that contains all requested columns, where every non-null cell
of each requested column is numeric and each requested column's
absolute cell sum is at most 2^53 (so pandas' int64/float64
accumulation is exact), `sumColumns` returns exactly one (label, total)
pair per requested column, in request order, each total the arithmetic
sum of the column's numeric values with missing cells skipped.  (A
zero-row table signals the view's error condition, and a requested
column mixing numeric and string cells raises `TypeError` — string
cells never contribute zero.) -/
theorem C3_sumColumns_sums (t : Table) (cs : List String)
    (hr : t.rows ≠ []) (hcols : t.cols ≠ []) (hc : ∀ c ∈ cs, c ∈ t.cols)
    (hnum : ∀ c ∈ cs, ∀ r ∈ t.rows,
      getVal r c = Value.null ∨ (getVal r c).isNum = true)
    (hrange : ∀ c ∈ cs,
      (((t.rows.filterMap fun r => (getVal r c).asInt?).map Int.natAbs).sum) ≤ 2 ^ 53) :
    sumColumns t cs =
      some (Except.ok (cs.map fun c =>
        (c, Value.num ((t.rows.filterMap fun r => (getVal r c).asInt?).sum)))) := by
  have hguard : (t.isEmptyDF || !(cs.all fun c => t.cols.contains c)) = false := by
    simp [Table.isEmptyDF, isEmpty_false_of_ne_nil hr,
      isEmpty_false_of_ne_nil hcols, all_contains_of_forall_mem hc]
    exact hc
  simp only [sumColumns, hguard, Bool.false_eq_true, if_false]
  congr 1
  refine mapM_ok_of_forall _ _ cs ?_
  intro c hcmem
  rw [colSum_numeric t c (hnum c hcmem)]
  rfl

/-- C3 witness: on the spec's example table (a = [1,2,3], b = [4,5,6])
the amended theorem gives [("a",6), ("b",15)]. -/
theorem C3_witness :
    (exTabAB.rows ≠ [] ∧ exTabAB.cols ≠ [] ∧
        (∀ c ∈ ["a", "b"], c ∈ exTabAB.cols) ∧
        (∀ c ∈ ["a", "b"], ∀ r ∈ exTabAB.rows,
          getVal r c = Value.null ∨ (getVal r c).isNum = true) ∧
        (∀ c ∈ ["a", "b"],
          (((exTabAB.rows.filterMap fun r => (getVal r c).asInt?).map
            Int.natAbs).sum) ≤ 2 ^ 53)) ∧
      sumColumns exTabAB ["a", "b"] =
        some (Except.ok [("a", Value.num 6), ("b", Value.num 15)]) :=
  ⟨⟨by decide, by decide, by decide, by decide, by decide⟩,
   (C3_sumColumns_sums exTabAB ["a", "b"] (by decide) (by decide) (by decide)
     (by decide) (by decide)).trans (by decide)⟩

/-! ### Claims C4 and C5: the loader -/

/-- The successfully parsed fragments of a file list. -/
def parsedTables (files : List (String × Except String Table)) : List Table :=
  files.filterMap fun p => p.2.toOption

/-- The warning a file contributes, if any: failed files yield their
name and failure reason. -/
def warnOf (p : String × Except String Table) : Option (String × String) :=
  match p.2 with
  | Except.error e => some (p.1, e)
  | Except.ok _ => none

theorem load_warns_eq (files : List (String × Except String Table)) :
    (load_folder_csvs files).2 = files.filterMap warnOf := by
  cases files with
  | nil => rfl
  | cons p t => rfl

theorem foldl_append_rows (ts : List Table)
    (acc : List (List (String × Value))) :
    (ts.foldl (fun a t => a ++ t.rows) acc).length =
      acc.length + (ts.map fun t => t.rows.length).sum := by
  induction ts generalizing acc with
  | nil => simp
  | cons t rest ih => simp [ih, add_assoc]

theorem concatTables_rows_length (ts : List Table) :
    (concatTables ts).rows.length = (ts.map fun t => t.rows.length).sum := by
  simpa using foldl_append_rows ts []

theorem load_rows_length (files : List (String × Except String Table)) :
    (load_folder_csvs files).1.rows.length =
      ((parsedTables files).map fun t => t.rows.length).sum := by
  cases files with
  | nil => rfl
  | cons p t =>
    have hlist : parsedTables (p :: t) = (p :: t).filterMap fun q => q.2.toOption := rfl
    have hload : load_folder_csvs (p :: t) =
        (if ((p :: t).filterMap fun q => q.2.toOption).isEmpty then Table.emptyTable
         else concatTables ((p :: t).filterMap fun q => q.2.toOption),
         (p :: t).filterMap warnOf) := rfl
    rw [hload]
    by_cases hd : ((p :: t).filterMap fun q => q.2.toOption) = []
    · rw [hlist, hd]
      simp [hd, Table.emptyTable]
    · have hne := isEmpty_false_of_ne_nil hd
      rw [hlist]
      simp only [hne, Bool.false_eq_true, if_false]
      exact concatTables_rows_length _

theorem length_filterMap_warnOf (files : List (String × Except String Table)) :
    (files.filterMap warnOf).length =
      files.countP fun p =>
        match p.2 with
        | Except.error _ => true
        | Except.ok _ => false := by
  induction files with
  | nil => rfl
  | cons p t ih =>
    obtain ⟨n, r⟩ := p
    cases r with
    | ok tab => simpa [warnOf, List.countP_cons] using ih
    | error e => simpa [warnOf, List.countP_cons] using ih

theorem mem_filterMap_warnOf (files : List (String × Except String Table))
    (w : String × String) :
    w ∈ files.filterMap warnOf ↔ (w.1, Except.error w.2) ∈ files := by
  rw [List.mem_filterMap]
  constructor
  · rintro ⟨⟨n, r⟩, hp, hw⟩
    cases r with
    | ok tab => simp [warnOf] at hw
    | error e =>
      simp [warnOf] at hw
      simpa [← hw] using hp
  · intro h
    exact ⟨(w.1, Except.error w.2), h, rfl⟩

/-- C4: for every file list, `load_folder_csvs` returns a table whose
row count is the sum of the successfully parsed files' row counts,
emits exactly one warning per failed file (naming the file and the
failure reason), and is total — no per-file failure aborts the load. -/
theorem C4_load_rowcount_and_warnings (files : List (String × Except String Table)) :
    (load_folder_csvs files).1.rows.length =
        ((parsedTables files).map fun t => t.rows.length).sum ∧
      (load_folder_csvs files).2.length =
        (files.countP fun p =>
          match p.2 with
          | Except.error _ => true
          | Except.ok _ => false) ∧
      (∀ w ∈ (load_folder_csvs files).2, (w.1, Except.error w.2) ∈ files) ∧
      (∀ p ∈ files, ∀ e, p.2 = Except.error e → (p.1, e) ∈ (load_folder_csvs files).2) := by
  refine ⟨load_rows_length files, ?_, ?_, ?_⟩
  · rw [load_warns_eq]
    exact length_filterMap_warnOf files
  · intro w hw
    rw [load_warns_eq] at hw
    exact (mem_filterMap_warnOf files w).mp hw
  · intro p hp e he
    rw [load_warns_eq]
    refine (mem_filterMap_warnOf files (p.1, e)).mpr ?_
    have hp' : p = (p.1, Except.error e) := by
      obtain ⟨n, r⟩ := p
      simp at he
      rw [he]
    rw [← hp']
    exact hp

/-- C4 witness: one parseable and one unparseable file give one data
row and a warning naming the failed file and reason. -/
theorem C4_witness :
    (load_folder_csvs
        [("a.csv", Except.ok ⟨["x"], [[("x", Value.num 9)]]⟩),
         ("b.csv", Except.error "parse error")]).1.rows.length = 1 ∧
      ("b.csv", "parse error") ∈
        (load_folder_csvs
          [("a.csv", Except.ok ⟨["x"], [[("x", Value.num 9)]]⟩),
           ("b.csv", Except.error "parse error")]).2 :=
  ⟨(C4_load_rowcount_and_warnings
      [("a.csv", Except.ok ⟨["x"], [[("x", Value.num 9)]]⟩),
       ("b.csv", Except.error "parse error")]).1.trans (by decide),
   (C4_load_rowcount_and_warnings
      [("a.csv", Except.ok ⟨["x"], [[("x", Value.num 9)]]⟩),
       ("b.csv", Except.error "parse error")]).2.2.2
     ("b.csv", Except.error "parse error")
     (List.mem_cons_of_mem _ (List.mem_cons_self _ _)) "parse error" rfl⟩

/-- C5: when zero files match or every matching file fails to parse,
`load_folder_csvs` returns the empty table — zero rows and an empty
column set — rather than an error; the function is total, so no input
(including a missing folder, whose glob result is the empty file list)
makes it raise. -/
theorem C5_load_empty_on_no_parsed (files : List (String × Except String Table))
    (h : ∀ p ∈ files, (p.2 : Except String Table).toOption = none) :
    (load_folder_csvs files).1.rows = [] ∧ (load_folder_csvs files).1.cols = [] := by
  cases files with
  | nil => exact ⟨rfl, rfl⟩
  | cons p t =>
    have hd : (p :: t).filterMap (fun q => (q.2 : Except String Table).toOption) = [] :=
      List.filterMap_eq_nil_iff.mpr h
    simp [load_folder_csvs, hd, Table.emptyTable]

/-- C5 witness: a folder whose only file fails to parse loads as the
empty table. -/
theorem C5_witness :
    (∀ p ∈ [("x.csv", (Except.error "bad" : Except String Table))],
        (p.2 : Except String Table).toOption = none) ∧
      (load_folder_csvs [("x.csv", Except.error "bad")]).1.rows = [] ∧
      (load_folder_csvs [("x.csv", Except.error "bad")]).1.cols = [] :=
  ⟨by decide, C5_load_empty_on_no_parsed [("x.csv", Except.error "bad")] (by decide)⟩

/-! ### Claim C6: filtered group-by counts -/

theorem seriesEq_true_iff (a b : Value) :
    seriesEq a b = true ↔ (a ≠ Value.null ∧ a = b) := by
  cases a <;> cases b <;> simp [seriesEq]

/-- C6 counterexample: a zero-row table containing both the group and
the filter column makes the Regional Insights view signal its error
condition, not return the empty result list the claim promises for a
filter value matching zero rows. -/
theorem C6_countByGroup_empty_cex :
    ("district" ∈ (⟨["state", "district"], []⟩ : Table).cols) ∧
      ("state" ∈ (⟨["state", "district"], []⟩ : Table).cols) ∧
      countByGroup ⟨["state", "district"], []⟩ "district"
        (some ("state", Value.str "X")) = none ∧
      countByGroup ⟨["state", "district"], []⟩ "district"
        (some ("state", Value.str "X")) ≠ some [] := by
  decide

/-- C6 amended: on every table with at least one row containing the
group and filter columns, `countByGroup` with a filter first restricts
to exactly the rows whose filter-column value is non-null and equal to
the filter value, then counts rows per distinct group value; a filter
value matching zero rows yields the empty result list, not an error.
(On a zero-row table the view signals its error condition instead.) -/
theorem C6_countByGroup_filter_spec (t : Table) (g f : String) (v : Value)
    (hr : t.rows ≠ []) (hg : g ∈ t.cols) (hf : f ∈ t.cols) :
    countByGroup t g (some (f, v)) =
        some (groupCounts
          (t.rows.filter fun r => decide (getVal r f ≠ Value.null ∧ getVal r f = v)) g) ∧
      ((∀ r ∈ t.rows, ¬(getVal r f ≠ Value.null ∧ getVal r f = v)) →
        countByGroup t g (some (f, v)) = some []) := by
  have hcols : t.cols ≠ [] := ne_nil_of_mem hg
  have hcg := List.elem_eq_true_of_mem hg
  have hcf := List.elem_eq_true_of_mem hf
  have hmain : countByGroup t g (some (f, v)) =
      some (groupCounts (t.rows.filter fun r => seriesEq (getVal r f) v) g) := by
    simp [countByGroup, Table.isEmptyDF, isEmpty_false_of_ne_nil hr,
      isEmpty_false_of_ne_nil hcols, hcg, hcf]
    exact ⟨hg, hf⟩
  have hfc : (t.rows.filter fun r => seriesEq (getVal r f) v) =
      t.rows.filter fun r => decide (getVal r f ≠ Value.null ∧ getVal r f = v) := by
    refine List.filter_congr ?_
    intro r _
    rw [Bool.eq_iff_iff]
    simp [seriesEq_true_iff]
  constructor
  · rw [hmain, hfc]
  · intro hnone
    have hnil : (t.rows.filter fun r => seriesEq (getVal r f) v) = [] := by
      rw [hfc]
      refine List.filter_eq_nil_iff.mpr ?_
      intro r hrr
      simpa using hnone r hrr
    rw [hmain, hnil]
    rfl

/-- C6 witness: the amended theorem on a concrete regional table —
filtering on state X counts districts A and B; a state matching zero
rows yields the empty list. -/
theorem C6_witness :
    (exTabReg.rows ≠ [] ∧ "district" ∈ exTabReg.cols ∧ "state" ∈ exTabReg.cols) ∧
      countByGroup exTabReg "district" (some ("state", Value.str "X")) =
        some [(Value.str "A", 2), (Value.str "B", 1)] ∧
      countByGroup exTabReg "district" (some ("state", Value.str "Z")) = some [] :=
  ⟨⟨by decide, by decide, by decide⟩,
   ((C6_countByGroup_filter_spec exTabReg "district" "state" (Value.str "X")
       (by decide) (by decide) (by decide)).1).trans (by decide),
   (C6_countByGroup_filter_spec exTabReg "district" "state" (Value.str "Z")
       (by decide) (by decide) (by decide)).2 (by decide)⟩

/-! ### Claim C7: predicate-matched sums -/

/-- C7 counterexample: the claim fails twice over — a zero-row table
with a matching `age_x` column makes the Biometric Lifecycle view signal
its error condition although the matched subset is nonempty, and a
matched column mixing a numeric and a string cell makes the summation
raise `TypeError` rather than return per-column totals. -/
theorem C7_sumMatchingColumns_empty_cex :
    (((⟨["age_x"], []⟩ : Table).cols.filter fun c => nameMatches c "age") ≠ [] ∧
        sumMatchingColumns ⟨["age_x"], []⟩ "age" = none) ∧
      (sumMatchingColumns
          ⟨["age_a"], [[("age_a", Value.num 1)], [("age_a", Value.str "x")]]⟩ "age" =
          some (Except.error "TypeError") ∧
        sumMatchingColumns
          ⟨["age_a"], [[("age_a", Value.num 1)], [("age_a", Value.str "x")]]⟩ "age" ≠
          some (Except.ok [("age_a", Value.num 1)])) := by
  decide

/-- C7 amended: on every table with at least one row,
`sumMatchingColumns` selects exactly the columns whose lowercased name
contains the predicate substring, preserving table column order, and
signals the no-matching-columns condition when that subset is empty;
when the subset is nonempty and each matched column's non-null cells
are all numeric with absolute cell sums at most 2^53 (so pandas'
int64/float64 accumulation is exact), it returns one (label, total)
pair per matched column with each total the arithmetic sum of the
column's numeric values, missing cells skipped.  (On a zero-row table
the view signals its error condition even when matching columns exist,
and a matched column mixing numeric and string cells raises
`TypeError`.) -/
theorem C7_sumMatchingColumns_spec (t : Table) (pred : String)
    (hr : t.rows ≠ []) :
    ((t.cols.filter fun c => nameMatches c pred) = [] →
        sumMatchingColumns t pred = none) ∧
      ((t.cols.filter fun c => nameMatches c pred) ≠ [] →
        (∀ c ∈ t.cols.filter fun c => nameMatches c pred, ∀ r ∈ t.rows,
          getVal r c = Value.null ∨ (getVal r c).isNum = true) →
        (∀ c ∈ t.cols.filter fun c => nameMatches c pred,
          (((t.rows.filterMap fun r => (getVal r c).asInt?).map Int.natAbs).sum) ≤
            2 ^ 53) →
        sumMatchingColumns t pred =
          some (Except.ok ((t.cols.filter fun c => nameMatches c pred).map
            fun c =>
              (c, Value.num ((t.rows.filterMap fun r => (getVal r c).asInt?).sum))))) := by
  constructor
  · intro hm
    simp [sumMatchingColumns, hm]
  · intro hm hnum hrange
    have hcols : t.cols ≠ [] := by
      intro h
      apply hm
      rw [h]
      rfl
    have hguard : (t.isEmptyDF ||
        (t.cols.filter fun c => nameMatches c pred).isEmpty) = false := by
      simp [Table.isEmptyDF, isEmpty_false_of_ne_nil hr,
        isEmpty_false_of_ne_nil hcols, isEmpty_false_of_ne_nil hm]
    show (if _ then _ else _) = _
    simp only [hguard, Bool.false_eq_true, if_false]
    congr 1
    refine mapM_ok_of_forall _ _ _ ?_
    intro c hcmem
    rw [colSum_numeric t c (hnum c hcmem)]
    rfl

/-- C7 witness: on the spec's example (age_x = [1,1], age_y = [2,2],
plus a `name` column) predicate "age" selects exactly age_x and age_y
and returns [("age_x",2), ("age_y",4)], excluding "name". -/
theorem C7_witness :
    (exTabBio.rows ≠ [] ∧
        (exTabBio.cols.filter fun c => nameMatches c "age") = ["age_x", "age_y"] ∧
        (∀ c ∈ exTabBio.cols.filter fun c => nameMatches c "age",
          ∀ r ∈ exTabBio.rows,
            getVal r c = Value.null ∨ (getVal r c).isNum = true) ∧
        (∀ c ∈ exTabBio.cols.filter fun c => nameMatches c "age",
          (((exTabBio.rows.filterMap fun r => (getVal r c).asInt?).map
            Int.natAbs).sum) ≤ 2 ^ 53)) ∧
      sumMatchingColumns exTabBio "age" =
        some (Except.ok [("age_x", Value.num 2), ("age_y", Value.num 4)]) :=
  ⟨⟨by decide, by decide, by decide, by decide⟩,
   ((C7_sumMatchingColumns_spec exTabBio "age" (by decide)).2 (by decide)
     (by decide) (by decide)).trans (by decide)⟩

/-! ### Claim C8: memoized loading -/

/-- C8: repeated calls of the memoized loader with the same folder path
within one process lifetime are idempotent — the second call returns the
same result as the first and performs no disk I/O (the loader-body
execution count is unchanged), because the result is cached keyed by the
folder path. -/
theorem C8_cachedLoad_idempotent (fs : String → List (String × Except String Table))
    (s : CacheState) (p : String) :
    (cachedLoad fs (cachedLoad fs s p).2 p).1 = (cachedLoad fs s p).1 ∧
      (cachedLoad fs (cachedLoad fs s p).2 p).2.ioCount =
        (cachedLoad fs s p).2.ioCount := by
  cases h : s.cache.lookup p with
  | some r => simp [cachedLoad, h]
  | none => simp [cachedLoad, h, List.lookup]

/-! ### Claim C9: converter round trip -/

/-- A fixture whose cells all survive the render/parse round trip. -/
def exTabRT : Table :=
  ⟨["h1", "h2"],
   [[("h1", Value.num 3), ("h2", Value.str "x")],
    [("h1", Value.null), ("h2", Value.num (-2))]]⟩

/-- C9 counterexample: a spreadsheet holding the text value "7" comes
back from the CSV round trip as the number 7, and one holding the text
"nan" comes back as a missing value — the loader's type inference
transforms the values, refuting "no transformation of any value". -/
theorem C9_roundTrip_cex :
    (roundTripTable ⟨["a"], [[("a", Value.str "7")]]⟩ =
        some ⟨["a"], [[("a", Value.num 7)]]⟩ ∧
      (⟨["a"], [[("a", Value.num 7)]]⟩ : Table) ≠
        ⟨["a"], [[("a", Value.str "7")]]⟩) ∧
      roundTripTable ⟨["a"], [[("a", Value.str "nan")]]⟩ =
        some ⟨["a"], [[("a", Value.null)]]⟩ := by
  decide

/-- C9 amended: whenever the round trip yields a table at all, it
reproduces the header row exactly as the column names; it reproduces the
data rows exactly provided every cell's textual rendering re-parses to
the same value — integer values, missing values, and text the loader
keeps as text (not integer-like, not an NA token such as "nan"/"NA"/
"None", not float-like or boolean-like) all qualify; text that looks
like a number is transformed into a number, NA tokens become missing
values, and float-like or boolean-like text becomes a float or bool,
outside this embedding's value domain. -/
theorem C9_roundTrip_spec (t : Table) :
    (∀ u, roundTripTable t = some u → u.cols = t.cols) ∧
      ((∀ r ∈ t.rows, r = t.cols.map fun c => (c, getVal r c)) →
        (∀ r ∈ t.rows, ∀ c ∈ t.cols,
          parseCell (renderCell (getVal r c)) = some (getVal r c)) →
        roundTripTable t = some t) := by
  constructor
  · intro u hu
    unfold roundTripTable at hu
    cases hm : (t.rows.mapM fun r =>
        t.cols.mapM fun c =>
          (parseCell (renderCell (getVal r c))).map fun v => (c, v)) with
    | none =>
      rw [hm] at hu
      cases hu
    | some rs =>
      rw [hm] at hu
      injection hu with hu
      rw [← hu]
  · intro h1 h2
    have hrow : ∀ r ∈ t.rows,
        (t.cols.mapM fun c =>
          (parseCell (renderCell (getVal r c))).map fun v => (c, v)) = some r := by
      intro r hr
      have hin := mapM_some_of_forall
        (fun c => (parseCell (renderCell (getVal r c))).map fun v => (c, v))
        (fun c => (c, getVal r c)) t.cols
        (fun c hc => by simp [h2 r hr c hc])
      rw [hin, ← h1 r hr]
    have houter := mapM_some_of_forall
      (fun r => t.cols.mapM fun c =>
        (parseCell (renderCell (getVal r c))).map fun v => (c, v))
      (fun r => r) t.rows hrow
    unfold roundTripTable
    rw [houter]
    simp

/-- C9 witness: a table of integers, a plain string and a missing value
survives the round trip unchanged. -/
theorem C9_witness :
    ((∀ r ∈ exTabRT.rows, r = exTabRT.cols.map fun c => (c, getVal r c)) ∧
        (∀ r ∈ exTabRT.rows, ∀ c ∈ exTabRT.cols,
          parseCell (renderCell (getVal r c)) = some (getVal r c))) ∧
      roundTripTable exTabRT = some exTabRT :=
  ⟨⟨by decide, by decide⟩,
   (C9_roundTrip_spec exTabRT).2 (by decide) (by decide)⟩

/-! ### Claim C10: converter on absent or xlsx-free subfolders -/

theorem joinPath_empty (b : String) : joinPath "" b = b := by
  simp [joinPath]

theorem foldIfOk (readOk : String → Bool) (out : String) (files : List String)
    (a : ConvState) (h : ∀ n ∈ files, readOk n = true) :
    files.foldlM
        (fun (x : ConvState) file =>
          if readOk file then
            Except.ok (⟨x.createdDirs, x.outputs ++ [(out, csvName file)]⟩ : ConvState)
          else Except.error file)
        a =
      Except.ok ⟨a.createdDirs, a.outputs ++ files.map fun n => (out, csvName n)⟩ := by
  induction files generalizing a with
  | nil => simp only [List.map_nil, List.append_nil, List.foldlM_nil]; rfl
  | cons n t ih =>
    have hn := h n (List.mem_cons_self _ _)
    rw [List.foldlM_cons, hn]
    show t.foldlM _ (⟨a.createdDirs, a.outputs ++ [(out, csvName n)]⟩ : ConvState) = _
    rw [ih _ fun m hm => h m (List.mem_cons_of_mem _ hm)]
    simp

theorem convertFolder_ok (fs : String → Option (List String))
    (readOk : String → Bool) (acc : ConvState) (folder : String)
    (h : ∀ n ∈ globXlsx (fs folder), readOk n = true) :
    convertFolder fs readOk acc folder =
      Except.ok ⟨acc.createdDirs ++ [joinPath OUTPUT_ROOT folder],
        acc.outputs ++ (globXlsx (fs folder)).map
          fun n => (joinPath OUTPUT_ROOT folder, csvName n)⟩ := by
  show (globXlsx (fs (joinPath "" folder))).foldlM _ _ = _
  rw [joinPath_empty]
  exact foldIfOk readOk (joinPath OUTPUT_ROOT folder) (globXlsx (fs folder))
    ⟨acc.createdDirs ++ [joinPath OUTPUT_ROOT folder], acc.outputs⟩ h

theorem foldlM_convertFolder_ok (fs : String → Option (List String))
    (readOk : String → Bool) (gs : List String) (acc : ConvState)
    (hok : ∀ g ∈ gs, ∀ n ∈ globXlsx (fs g), readOk n = true) :
    gs.foldlM (convertFolder fs readOk) acc =
      Except.ok ⟨acc.createdDirs ++ gs.map (fun g => joinPath OUTPUT_ROOT g),
        acc.outputs ++ (gs.map fun g => (globXlsx (fs g)).map
          fun n => (joinPath OUTPUT_ROOT g, csvName n)).flatten⟩ := by
  induction gs generalizing acc with
  | nil =>
    simp only [List.map_nil, List.append_nil, List.flatten_nil, List.foldlM_nil]
    rfl
  | cons g gs ih =>
    rw [List.foldlM_cons,
      convertFolder_ok fs readOk acc g (hok g (List.mem_cons_self _ _))]
    show gs.foldlM _ _ = _
    rw [ih _ fun g' hg' => hok g' (List.mem_cons_of_mem _ hg')]
    simp

/-- C10: for every subfolder of the converter's fixed list, if the
input subfolder does not exist or holds no file ending in the exact
lowercase extension ".xlsx", the run still creates the mirrored output
subfolder, writes zero CSVs for it, and (absent read failures in the
other folders) completes successfully without raising. -/
theorem C10_converter_empty_folder_ok (fs : String → Option (List String))
    (readOk : String → Bool) (f : String) (hf : f ∈ folders)
    (hempty : fs f = none ∨ ∀ n ∈ (fs f).getD [], endsWithExt n ".xlsx" = false)
    (hok : ∀ g ∈ folders, ∀ n ∈ globXlsx (fs g), readOk n = true) :
    ∃ res, runConverter fs readOk = Except.ok res ∧
      joinPath OUTPUT_ROOT f ∈ res.createdDirs ∧
      res.outputs.filter (fun p => p.1 == joinPath OUTPUT_ROOT f) = [] := by
  have hgl : globXlsx (fs f) = [] := by
    rcases hempty with h | h
    · simp [globXlsx, h]
    · cases hcase : fs f with
      | none => simp [globXlsx]
      | some ns =>
        refine List.filter_eq_nil_iff.mpr ?_
        intro n hn
        rw [hcase] at h
        simp [h n hn]
  have hrun := foldlM_convertFolder_ok fs readOk folders ⟨[OUTPUT_ROOT], []⟩ hok
  refine ⟨_, hrun, ?_, ?_⟩
  · have : f = "api_data_aadhar_enrolment" ∨ f = "api_data_aadhar_demographic" ∨
        f = "api_data_aadhar_biometric" := by simpa [folders] using hf
    rcases this with h | h | h <;> subst h <;> simp [folders]
  · have hfcases : f = "api_data_aadhar_enrolment" ∨
        f = "api_data_aadhar_demographic" ∨
        f = "api_data_aadhar_biometric" := by simpa [folders] using hf
    show (([] : List (String × String)) ++
        (folders.map fun g => (globXlsx (fs g)).map
          fun n => (joinPath OUTPUT_ROOT g, csvName n)).flatten).filter _ = []
    rcases hfcases with h | h | h <;> subst h <;>
      simp [folders, List.filter_append, hgl] <;>
      exact ⟨fun a ha => by decide, fun a ha => by decide⟩

/-- C10 witness: with every input folder absent, the run succeeds, the
enrolment output folder is still created and holds zero files. -/
theorem C10_witness :
    ∃ res, runConverter (fun _ => none) (fun _ => true) = Except.ok res ∧
      joinPath OUTPUT_ROOT "api_data_aadhar_enrolment" ∈ res.createdDirs ∧
      res.outputs.filter
        (fun p => p.1 == joinPath OUTPUT_ROOT "api_data_aadhar_enrolment") = [] :=
  C10_converter_empty_folder_ok (fun _ => none) (fun _ => true)
    "api_data_aadhar_enrolment" (by decide) (Or.inl rfl) (by decide)

end AadhaarDash
